import Mathlib

/-!
Verification development for the data-access layer of a note-taking plugin
(source file: src/util.ts). The module issues GraphQL queries against a
reading-list service, maps response envelopes into typed records, and
provides small utilities: highlight-position decoding and comparison,
markdown/quote escaping, and date parsing with a fallback format.

Modelling conventions for the TypeScript/JavaScript source:
* JavaScript runtime values appearing in the highlight-geometry code are
  modelled by the inductive `JsValue`; JS numbers are modelled as rationals
  (the only arithmetic performed on them is subtraction and sign/equality
  tests, for which rationals agree with IEEE doubles on exact inputs).
* The result of `JSON.parse(patch)` is modelled as `Option JsValue`:
  `none` models a string that is not valid JSON, on which `JSON.parse`
  throws a SyntaxError. A thrown exception is modelled as `Except.error ()`.
* External libraries (diff-match-patch, luxon, markdown-escape) are
  modelled by their interfaces: the list of patch objects returned by
  `patch_fromText`, an abstract `fromFormat` parser, and an abstract
  `escape` function that may throw.
* The three fetch functions are `async` wrappers around one HTTP POST; the
  pure content — request-parameter construction and response-envelope
  mapping — is embedded; the transport itself is not.
-/

set_option autoImplicit false

/-- JavaScript runtime values as they arise in the highlight-geometry code:
the possible results of `JSON.parse` (null, booleans, numbers, strings,
arrays, objects) together with `undefined` (absent-property accesses) and
`NaN` (non-numeric arithmetic). Object fields are listed as produced by
`JSON.parse`, duplicate keys already collapsed. -/
inductive JsValue : Type where
  | null : JsValue
  | undefined : JsValue
  | nan : JsValue
  | bool : Bool → JsValue
  | num : ℚ → JsValue
  | str : String → JsValue
  | arr : List JsValue → JsValue
  | obj : List (String × JsValue) → JsValue

/-- JavaScript truthiness: `null`, `undefined`, `NaN`, `false`, `0` and the
empty string are falsy; every array and object is truthy. -/
def jsFalsy : JsValue → Bool
  | .null => true
  | .undefined => true
  | .nan => true
  | .bool b => !b
  | .num q => decide (q = 0)
  | .str s => decide (s = "")
  | .arr _ => false
  | .obj _ => false

/-- JavaScript strict equality `===`. It performs no coercion; `NaN` is not
strictly equal to anything, including itself. Arrays and objects compare by
reference; in this module every composite operand of `===` comes from a
fresh `JSON.parse` allocation, so distinct-looking composites are never the
same reference and the comparison is `false`. -/
def jsStrictEq : JsValue → JsValue → Bool
  | .null, .null => true
  | .undefined, .undefined => true
  | .bool a, .bool b => decide (a = b)
  | .num a, .num b => decide (a = b)
  | .str a, .str b => decide (a = b)
  | _, _ => false

/-- JavaScript ToNumber coercion on the fragment exercised in this module
(`none` models `NaN`). Strings and composites also coerce in JS (via a
numeric-literal scan resp. ToPrimitive); every theorem below only ever
subtracts two numbers, and those cases are conservatively mapped to `NaN`. -/
def jsToNumber : JsValue → Option ℚ
  | .num q => some q
  | .null => some 0
  | .bool b => some (if b then 1 else 0)
  | _ => none

/-- JavaScript binary `-`: coerces both operands with ToNumber and
subtracts; any `NaN` operand yields `NaN`. -/
def jsSub (a b : JsValue) : JsValue :=
  match jsToNumber a, jsToNumber b with
  | some x, some y => .num (x - y)
  | _, _ => .nan

/-- Property lookup in a parsed-JSON object field list. -/
def lookupField (k : String) (fields : List (String × JsValue)) : JsValue :=
  match fields.lookup k with
  | some v => v
  | none => .undefined

/-- JavaScript `.length` property access on a non-falsy value: arrays and
strings report their length; objects report their `length` field if any;
boxed numbers and booleans have no such property, giving `undefined`. -/
def jsLengthProp : JsValue → JsValue
  | .arr xs => .num (xs.length : ℚ)
  | .str s => .num (s.length : ℚ)
  | .obj fields => lookupField "length" fields
  | _ => .undefined

/-- JavaScript indexed access `v[i]` for a natural index: array element,
single-character string, or object property named by the decimal index;
`undefined` when absent (never reached on `null`/`undefined` here because
the code tests truthiness first). -/
def jsIndex (v : JsValue) (i : Nat) : JsValue :=
  match v with
  | .arr xs =>
    match xs.get? i with
    | some x => x
    | none => .undefined
  | .str s =>
    match s.data.get? i with
    | some c => .str (String.singleton c)
    | none => .undefined
  | .obj fields => lookupField (toString i) fields
  | _ => .undefined

/-- The destructuring `const { bbox } = JSON.parse(patch)` applied to the
parsed value: destructuring `null` (or `undefined`) throws a TypeError;
an object yields its `bbox` field or `undefined`; any other value boxes to
an object without a `bbox` property, yielding `undefined`. -/
def getBboxField : JsValue → Except Unit JsValue
  | .null => .error ()
  | .undefined => .error ()
  | .obj fields => .ok (lookupField "bbox" fields)
  | _ => .ok .undefined

/-- The `HighlightPoint` interface (source: `{ left: number; top: number }`).
The TypeScript type declares both fields as numbers, but the code assigns
`bbox[0]`/`bbox[1]` unchecked, so the runtime values are arbitrary
`JsValue`s and are modelled as such. -/
structure HighlightPoint where
  left : JsValue
  top : JsValue

/-- Embedding of `getHighlightPoint(patch)`. The argument is the result of
`JSON.parse(patch)` (`none` = the parse threw). The source destructures
`bbox` out of the parsed value, returns `{left: 0, top: 0}` when
`!bbox || bbox.length !== 4`, and otherwise `{left: bbox[0], top: bbox[1]}`.
There is no try/catch: a parse failure or a `null` destructuring propagates
as an exception (`Except.error ()`). -/
def getHighlightPoint (parsed : Option JsValue) : Except Unit HighlightPoint :=
  match parsed with
  | none => .error ()
  | some v =>
    match getBboxField v with
    | .error e => .error e
    | .ok bbox =>
      if jsFalsy bbox || !(jsStrictEq (jsLengthProp bbox) (.num 4)) then
        .ok ⟨.num 0, .num 0⟩
      else
        .ok ⟨jsIndex bbox 0, jsIndex bbox 1⟩

/-- A patch object as returned by diff-match-patch's `patch_fromText`:
its `start1` field is declared `number | null` in the library's typings. -/
structure PatchObj where
  start1 : Option Int
  start2 : Option Int
  length1 : Int
  length2 : Int

/-- Embedding of `getHighlightLocation(patch)`. The argument is the patch
list returned by `dmp.patch_fromText(patch)`. The source evaluates
`patches[0].start1 || 0`: when the list is empty, `patches[0]` is
`undefined` and the `.start1` access throws a TypeError
(`Except.error ()`); otherwise `|| 0` turns a falsy `start1`
(`null` or `0`) into `0`. -/
def getHighlightLocation (patches : List PatchObj) : Except Unit Int :=
  match patches with
  | [] => .error ()
  | p :: _ =>
    .ok (match p.start1 with
      | none => 0
      | some s => if s = 0 then 0 else s)

/-- The `Label` interface. -/
structure Label where
  name : String

/-- The `HighlightType` enum. -/
inductive HighlightType : Type where
  | Highlight : HighlightType
  | Note : HighlightType
  | Redaction : HighlightType
deriving DecidableEq

/-- The `Highlight` interface. The `patch` field is an opaque string in the
source; the only consumption point in this module is `JSON.parse(patch)`
inside `getHighlightPoint`, so the field is carried here as that parse
outcome (`none` = the string is not valid JSON). -/
structure Highlight where
  id : String
  quote : String
  annotation : String
  patch : Option JsValue
  updatedAt : String
  labels : Option (List Label)
  type : HighlightType

/-- The `PageType` enum. -/
inductive PageType : Type where
  | Article : PageType
  | Book : PageType
  | File : PageType
  | Profile : PageType
  | Unknown : PageType
  | Website : PageType
  | Highlights : PageType
deriving DecidableEq

/-- The `Article` interface. -/
structure Article where
  title : String
  siteName : String
  originalArticleUrl : String
  author : String
  description : String
  slug : String
  labels : Option (List Label)
  highlights : Option (List Highlight)
  updatedAt : String
  savedAt : String
  pageType : PageType
  content : Option String
  publishedAt : Option String

/-- The `UpdateReason` enum. -/
inductive UpdateReason : Type where
  | CREATED : UpdateReason
  | UPDATED : UpdateReason
  | DELETED : UpdateReason
deriving DecidableEq

/-- The `pageInfo` part of the response envelopes. -/
structure PageInfo where
  hasNextPage : Bool

/-- One edge of the `SearchResponse` envelope. -/
structure SearchEdge where
  node : Article

/-- The `data.search` part of the `SearchResponse` envelope. -/
structure SearchConnection where
  edges : List SearchEdge
  pageInfo : PageInfo

/-- The `data` part of the `SearchResponse` envelope. -/
structure SearchData where
  search : SearchConnection

/-- The `SearchResponse` envelope. -/
structure SearchResponse where
  data : SearchData

/-- The node of an `UpdatesSinceResponse` edge. -/
structure SlugNode where
  slug : String

/-- One edge of the `UpdatesSinceResponse` envelope. -/
structure UpdatesSinceEdge where
  updateReason : UpdateReason
  node : SlugNode

/-- The `data.updatesSince` part of the `UpdatesSinceResponse` envelope. -/
structure UpdatesSinceConnection where
  edges : List UpdatesSinceEdge
  pageInfo : PageInfo

/-- The `data` part of the `UpdatesSinceResponse` envelope. -/
structure UpdatesSinceData where
  updatesSince : UpdatesSinceConnection

/-- The `UpdatesSinceResponse` envelope. -/
structure UpdatesSinceResponse where
  data : UpdatesSinceData

/-- Embedding of `compareHighlightsInFile(a, b)`: decodes both highlights
with `getHighlightPoint` (in source order — an exception thrown while
decoding `a.patch` propagates before `b.patch` is touched), then returns
`a.left - b.left` when the `top` values are strictly equal and
`a.top - b.top` otherwise. -/
def compareHighlightsInFile (a b : Highlight) : Except Unit JsValue :=
  match getHighlightPoint a.patch, getHighlightPoint b.patch with
  | .error e, _ => .error e
  | .ok _, .error e => .error e
  | .ok highlightPointA, .ok highlightPointB =>
    if jsStrictEq highlightPointA.top highlightPointB.top then
      .ok (jsSub highlightPointA.left highlightPointB.left)
    else
      .ok (jsSub highlightPointA.top highlightPointB.top)

/-- Response-envelope mapping of `loadArticles`: the returned pair is the
list of `edges` nodes and the envelope's `hasNextPage` flag. -/
def loadArticles (jsonRes : SearchResponse) : List Article × Bool :=
  (jsonRes.data.search.edges.map (fun e => e.node),
   jsonRes.data.search.pageInfo.hasNextPage)

/-- The `query` GraphQL variable built by `loadArticles`:
the template literal
`${updatedAt ? 'updated:' + updatedAt : ''} sort:saved-asc ${query}`
(a non-empty `updatedAt` string is truthy). -/
def loadArticlesSearchQuery (updatedAt query : String) : String :=
  (if updatedAt ≠ "" then "updated:" ++ updatedAt else "") ++
    " sort:saved-asc " ++ query

/-- Default value of the `first` parameter of `loadArticles`
(declaration `first = 10`). -/
def loadArticlesDefaultFirst : Nat := 10

/-- Response-envelope mapping of `loadDeletedArticleSlugs`: filters the
`updatesSince` edges to those whose `updateReason === DELETED`, maps each
to its node's slug, and pairs the result with `hasNextPage`. -/
def loadDeletedArticleSlugs (jsonRes : UpdatesSinceResponse) :
    List String × Bool :=
  ((jsonRes.data.updatesSince.edges.filter
      (fun edge => decide (edge.updateReason = UpdateReason.DELETED))).map
      (fun edge => edge.node.slug),
   jsonRes.data.updatesSince.pageInfo.hasNextPage)

/-- The `since` GraphQL variable interpolated by `loadDeletedArticleSlugs`:
the expression `updatedAt || '2021-01-01'` (the empty string is the only
falsy string). -/
def loadDeletedArticleSlugsSince (updatedAt : String) : String :=
  if updatedAt = "" then "2021-01-01" else updatedAt

/-- The constant `DATE_FORMAT_W_OUT_SECONDS`. -/
def DATE_FORMAT_W_OUT_SECONDS : String := "yyyy-MM-dd'T'HH:mm"

/-- The constant `DATE_FORMAT`, built by the template literal
appending `:ss` to `DATE_FORMAT_W_OUT_SECONDS`. -/
def DATE_FORMAT : String := DATE_FORMAT_W_OUT_SECONDS ++ ":ss"

/-- Interface of a luxon `DateTime` value: the module only reads its
`isValid` flag; the carried instant is abstracted to a number so that
distinct parses stay distinguishable. luxon's `fromFormat` returns an
invalid `DateTime` object on a failed parse — it does not throw. -/
structure LuxonDateTime where
  isValid : Bool
  millis : Int
deriving DecidableEq

/-- Embedding of `parseDateTime(str)`, parameterised by the external
`DateTime.fromFormat(text, format)` parser: parse with `DATE_FORMAT`
first, keep the result when `isValid`, otherwise re-parse with
`DATE_FORMAT_W_OUT_SECONDS` and return that result unconditionally. -/
def parseDateTime (fromFormat : String → String → LuxonDateTime)
    (str : String) : LuxonDateTime :=
  let res := fromFormat str DATE_FORMAT
  if res.isValid then res
  else fromFormat str DATE_FORMAT_W_OUT_SECONDS

/-- Embedding of `markdownEscape(text)`, parameterised by the external
markdown-escape library function, which may throw (`Except.error`): the
source wraps the call in try/catch, logs the exception and returns the
unmodified input on failure. -/
def markdownEscape (escape : String → Except String String)
    (text : String) : String :=
  match escape text with
  | .ok s => s
  | .error _ => text

/-- Character-by-character scan of `text.replace(/"/g, '\"')`: the regex
pattern is the single character `"`, so the global replace rewrites each
occurrence to the two characters `\` `"` and copies every other character
unchanged. -/
def replaceQuotes : List Char → List Char
  | [] => []
  | c :: cs =>
    if c = '"' then '\\' :: '"' :: replaceQuotes cs
    else c :: replaceQuotes cs

/-- Embedding of `escapeQuotationMarks(text)`. -/
def escapeQuotationMarks (text : String) : String :=
  ⟨replaceQuotes text.data⟩

/-- Sample highlight anchored at bbox `[10, 5, 2, 2]` (left 10, top 5). -/
def sampleHighlightA : Highlight :=
  ⟨"h1", "quote", "note",
   some (.obj [("bbox", .arr [.num 10, .num 5, .num 2, .num 2])]),
   "2023-01-01", none, .Highlight⟩

/-- Sample highlight anchored at bbox `[3, 5, 2, 2]` (left 3, top 5). -/
def sampleHighlightB : Highlight :=
  ⟨"h2", "quote", "note",
   some (.obj [("bbox", .arr [.num 3, .num 5, .num 2, .num 2])]),
   "2023-01-01", none, .Highlight⟩

theorem replaceQuotes_append (l₁ l₂ : List Char) :
    replaceQuotes (l₁ ++ l₂) = replaceQuotes l₁ ++ replaceQuotes l₂ := by
  induction l₁ with
  | nil => rfl
  | cons c cs ih =>
    by_cases h : c = '"' <;> simp [replaceQuotes, h, ih]

theorem replaceQuotes_of_no_quote (l : List Char) (h : ∀ c ∈ l, c ≠ '"') :
    replaceQuotes l = l := by
  induction l with
  | nil => rfl
  | cons c cs ih =>
    have hc : c ≠ '"' := h c (List.mem_cons_self c cs)
    simp only [replaceQuotes, if_neg hc]
    exact congrArg (c :: ·) (ih fun x hx => h x (List.mem_cons_of_mem c hx))

theorem filter_deleted_map_slug (l : List UpdatesSinceEdge) :
    (l.filter (fun edge => decide (edge.updateReason = UpdateReason.DELETED))).map
        (fun edge => edge.node.slug)
      = l.filterMap (fun e => if e.updateReason = UpdateReason.DELETED
          then some e.node.slug else none) := by
  induction l with
  | nil => rfl
  | cons a l ih =>
    by_cases h : a.updateReason = UpdateReason.DELETED <;>
      simp [List.filter_cons, List.filterMap_cons, h, ih]

/-- C1: the claim states that `getHighlightPoint` never throws and that a
malformed patch yields `{left: 0, top: 0}`. It is false: `JSON.parse` is
not wrapped in try/catch, so a patch that is not valid JSON throws a
SyntaxError out of the function (modelled by the `none` parse outcome),
and a patch equal to the JSON text `null` throws a TypeError while
destructuring `bbox`; neither input produces `{left: 0, top: 0}`. -/
theorem getHighlightPoint_throws_on_malformed_patch :
    getHighlightPoint none = Except.error ()
      ∧ getHighlightPoint (some JsValue.null) = Except.error ()
      ∧ getHighlightPoint none ≠ Except.ok ⟨JsValue.num 0, JsValue.num 0⟩ :=
  ⟨rfl, rfl, fun h => Except.noConfusion h⟩

/-- C1 (amended): when the patch string does parse as JSON to a non-null
value, a missing/falsy `bbox` field or a `bbox` whose `length` property is
not strictly equal to `4` yields exactly `{left: 0, top: 0}`; a patch that
is not valid JSON, or that parses to JSON `null`, instead throws. -/
theorem getHighlightPoint_default_zero (v b : JsValue)
    (hb : getBboxField v = Except.ok b)
    (hcond : jsFalsy b = true
      ∨ jsStrictEq (jsLengthProp b) (JsValue.num 4) = false) :
    getHighlightPoint (some v) = Except.ok ⟨JsValue.num 0, JsValue.num 0⟩ := by
  have hc : (jsFalsy b || !jsStrictEq (jsLengthProp b) (JsValue.num 4)) = true := by
    rcases hcond with h | h <;> simp [h]
  simp only [getHighlightPoint, hb, hc, if_true]

/-- Witness for the amended C1: an object with no `bbox` field maps to the
zero point. -/
theorem getHighlightPoint_default_zero_witness :
    getHighlightPoint (some (JsValue.obj [("x", JsValue.num 1)]))
      = Except.ok ⟨JsValue.num 0, JsValue.num 0⟩ :=
  getHighlightPoint_default_zero (JsValue.obj [("x", JsValue.num 1)])
    JsValue.undefined rfl (Or.inl rfl)

/-- C2: the claim states that `getHighlightLocation` returns 0 when the
decoder produces no patch segment. It is false: on an empty patch list the
source evaluates `patches[0].start1`, and `patches[0]` is `undefined`, so
the property access throws a TypeError instead of returning 0. -/
theorem getHighlightLocation_throws_on_empty :
    getHighlightLocation [] = Except.error ()
      ∧ getHighlightLocation [] ≠ Except.ok 0 :=
  ⟨rfl, fun h => Except.noConfusion h⟩

/-- C2 (amended): when the decoder produces at least one patch segment,
`getHighlightLocation` returns the first segment's `start1` (with `null`
defaulted to 0 by `|| 0`); when it produces none, the function throws. -/
theorem getHighlightLocation_first_start1 (p : PatchObj) (ps : List PatchObj) :
    getHighlightLocation (p :: ps) = Except.ok (p.start1.getD 0) := by
  cases h : p.start1 with
  | none => simp [getHighlightLocation, h]
  | some s =>
    by_cases hs : s = 0 <;> simp [getHighlightLocation, h, hs]

/-- C4: a patch parsing to an object whose `bbox` field is an array of
exactly four numbers `[x, y, w, h]` makes `getHighlightPoint` return
`{left: x, top: y}` — the first two elements. -/
theorem getHighlightPoint_four_bbox (fields : List (String × JsValue))
    (x y w h : ℚ)
    (hb : lookupField "bbox" fields
      = JsValue.arr [JsValue.num x, JsValue.num y, JsValue.num w, JsValue.num h]) :
    getHighlightPoint (some (JsValue.obj fields))
      = Except.ok ⟨JsValue.num x, JsValue.num y⟩ := by
  have hfour : jsStrictEq
      (jsLengthProp (JsValue.arr
        [JsValue.num x, JsValue.num y, JsValue.num w, JsValue.num h]))
      (JsValue.num 4) = true := by
    simp [jsLengthProp, jsStrictEq]
  simp [getHighlightPoint, getBboxField, hb, hfour, jsFalsy, jsIndex]

/-- Witness for C4 on the concrete bbox `[1, 2, 3, 4]`. -/
theorem getHighlightPoint_four_bbox_witness :
    getHighlightPoint (some (JsValue.obj
        [("bbox", JsValue.arr
          [JsValue.num 1, JsValue.num 2, JsValue.num 3, JsValue.num 4])]))
      = Except.ok ⟨JsValue.num 1, JsValue.num 2⟩ :=
  getHighlightPoint_four_bbox
    [("bbox", JsValue.arr
      [JsValue.num 1, JsValue.num 2, JsValue.num 3, JsValue.num 4])]
    1 2 3 4 rfl

/-- C3: on highlights whose patches decode to numeric points, the
comparator value is negative exactly when `(top, left)` of the first is
lexicographically below the second, positive exactly when above, and zero
exactly when both components coincide; swapping the arguments negates the
value, so the comparator is antisymmetric. -/
theorem compareHighlightsInFile_lex (a b : Highlight) (tA lA tB lB : ℚ)
    (ha : getHighlightPoint a.patch = Except.ok ⟨JsValue.num lA, JsValue.num tA⟩)
    (hb : getHighlightPoint b.patch = Except.ok ⟨JsValue.num lB, JsValue.num tB⟩) :
    ∃ r : ℚ,
      compareHighlightsInFile a b = Except.ok (JsValue.num r) ∧
      compareHighlightsInFile b a = Except.ok (JsValue.num (-r)) ∧
      (r < 0 ↔ (tA < tB ∨ (tA = tB ∧ lA < lB))) ∧
      (0 < r ↔ (tB < tA ∨ (tA = tB ∧ lB < lA))) ∧
      (r = 0 ↔ (tA = tB ∧ lA = lB)) := by
  by_cases htop : tA = tB
  · subst htop
    refine ⟨lA - lB, ?_, ?_, ?_, ?_, ?_⟩
    · simp [compareHighlightsInFile, ha, hb, jsStrictEq, jsSub, jsToNumber]
    · simp [compareHighlightsInFile, ha, hb, jsStrictEq, jsSub, jsToNumber,
        neg_sub]
    · simp [sub_neg]
    · simp [sub_pos]
    · simp [sub_eq_zero]
  · have htop' : ¬tB = tA := fun h => htop h.symm
    refine ⟨tA - tB, ?_, ?_, ?_, ?_, ?_⟩
    · simp [compareHighlightsInFile, ha, hb, jsStrictEq, htop, jsSub, jsToNumber]
    · simp [compareHighlightsInFile, ha, hb, jsStrictEq, htop', jsSub,
        jsToNumber, neg_sub]
    · simp [sub_neg, htop]
    · simp [sub_pos, htop]
    · simp [sub_eq_zero, htop]

/-- Witness for C3: two sample highlights with equal `top` 5 and `left`
10 versus 3, instantiating the lexicographic characterisation. -/
theorem compareHighlightsInFile_lex_witness :
    ∃ r : ℚ,
      compareHighlightsInFile sampleHighlightA sampleHighlightB
          = Except.ok (JsValue.num r) ∧
      compareHighlightsInFile sampleHighlightB sampleHighlightA
          = Except.ok (JsValue.num (-r)) ∧
      (r < 0 ↔ ((5 : ℚ) < 5 ∨ ((5 : ℚ) = 5 ∧ (10 : ℚ) < 3))) ∧
      (0 < r ↔ ((5 : ℚ) < 5 ∨ ((5 : ℚ) = 5 ∧ (3 : ℚ) < 10))) ∧
      (r = 0 ↔ ((5 : ℚ) = 5 ∧ (10 : ℚ) = 3)) :=
  compareHighlightsInFile_lex sampleHighlightA sampleHighlightB 5 10 5 3 rfl rfl

/-- C5: for every updates-since response, the returned list consists of
exactly the slugs of the edges whose `updateReason` is `DELETED` (edges
tagged `CREATED` or `UPDATED` contribute nothing), paired with the
envelope's `hasNextPage`; and when the caller passes an empty `updatedAt`
the interpolated `since` parameter is `2021-01-01`. -/
theorem loadDeletedArticleSlugs_deleted_only (r : UpdatesSinceResponse) :
    loadDeletedArticleSlugs r
        = (r.data.updatesSince.edges.filterMap
            (fun e => if e.updateReason = UpdateReason.DELETED
              then some e.node.slug else none),
           r.data.updatesSince.pageInfo.hasNextPage)
      ∧ loadDeletedArticleSlugsSince "" = "2021-01-01" := by
  constructor
  · unfold loadDeletedArticleSlugs
    rw [filter_deleted_map_slug]
  · rfl

/-- C6: `parseDateTime` first parses with the seconds-inclusive format
(`DATE_FORMAT`, which is the string `yyyy-MM-dd'T'HH:mm:ss`) and keeps
that result when valid; otherwise it returns the parse with the
seconds-omitted format (`yyyy-MM-dd'T'HH:mm`); when both attempts are
invalid it still returns the (invalid) second result rather than
throwing. -/
theorem parseDateTime_two_formats
    (fromFormat : String → String → LuxonDateTime) (str : String) :
    DATE_FORMAT = "yyyy-MM-dd'T'HH:mm:ss" ∧
    DATE_FORMAT_W_OUT_SECONDS = "yyyy-MM-dd'T'HH:mm" ∧
    ((fromFormat str DATE_FORMAT).isValid = true →
      parseDateTime fromFormat str = fromFormat str DATE_FORMAT) ∧
    ((fromFormat str DATE_FORMAT).isValid = false →
      parseDateTime fromFormat str = fromFormat str DATE_FORMAT_W_OUT_SECONDS) ∧
    ((fromFormat str DATE_FORMAT).isValid = false →
      (fromFormat str DATE_FORMAT_W_OUT_SECONDS).isValid = false →
      (parseDateTime fromFormat str).isValid = false) := by
  refine ⟨rfl, rfl, ?_, ?_, ?_⟩
  · intro h
    simp [parseDateTime, h]
  · intro h
    simp [parseDateTime, h]
  · intro h1 h2
    simp [parseDateTime, h1, h2]

/-- Witness for C6: a parser accepting only the seconds-inclusive format
makes `parseDateTime` return its first result, and a parser rejecting
both formats makes `parseDateTime` return an invalid value. -/
theorem parseDateTime_two_formats_witness :
    parseDateTime (fun _ f => ⟨decide (f = DATE_FORMAT), 0⟩) "2023-01-05T10:30:00"
        = (⟨true, 0⟩ : LuxonDateTime)
      ∧ (parseDateTime (fun _ _ => ⟨false, 7⟩) "not-a-date").isValid = false := by
  constructor
  · have h := (parseDateTime_two_formats
      (fun _ f => (⟨decide (f = DATE_FORMAT), 0⟩ : LuxonDateTime))
      "2023-01-05T10:30:00").2.2.1 (by simp)
    simpa using h
  · exact (parseDateTime_two_formats
      (fun _ _ => (⟨false, 7⟩ : LuxonDateTime)) "not-a-date").2.2.2.2 rfl rfl

/-- C7: `markdownEscape` returns the library's escaped output when the
library succeeds and returns the original input unmodified when the
library throws — the exception never propagates. -/
theorem markdownEscape_fail_open
    (escape : String → Except String String) (text : String) :
    (∀ e, escape text = Except.error e → markdownEscape escape text = text) ∧
    (∀ s, escape text = Except.ok s → markdownEscape escape text = s) := by
  constructor
  · intro e h
    simp [markdownEscape, h]
  · intro s h
    simp [markdownEscape, h]

/-- Witness for C7: a throwing escape library returns the input verbatim;
a succeeding one returns its output. -/
theorem markdownEscape_fail_open_witness :
    markdownEscape (fun _ => Except.error "boom") "a*b_c" = "a*b_c"
      ∧ markdownEscape (fun s => Except.ok (s ++ "!")) "x" = "x!" :=
  ⟨(markdownEscape_fail_open (fun _ => Except.error "boom") "a*b_c").1 "boom" rfl,
   (markdownEscape_fail_open (fun s => Except.ok (s ++ "!")) "x").2 "x!" rfl⟩

/-- C8: the search query variable is the `updated:<date>` filter — present
exactly when `updatedAt` is non-empty — followed by the fixed
`sort:saved-asc` clause and the caller's free-text query, in that order;
and the default page size of `loadArticles` is 10. -/
theorem loadArticles_query_structure (updatedAt query : String) :
    (updatedAt ≠ "" →
      loadArticlesSearchQuery updatedAt query
        = "updated:" ++ updatedAt ++ " sort:saved-asc " ++ query) ∧
    (updatedAt = "" →
      loadArticlesSearchQuery updatedAt query = " sort:saved-asc " ++ query) ∧
    loadArticlesDefaultFirst = 10 := by
  refine ⟨?_, ?_, rfl⟩
  · intro h
    simp [loadArticlesSearchQuery, h, String.append_assoc]
  · intro h
    simp [loadArticlesSearchQuery, h]

/-- Witness for C8 at a concrete non-empty `updatedAt` and a concrete
empty one. -/
theorem loadArticles_query_structure_witness :
    loadArticlesSearchQuery "2023-01-05T10:30:00" "in:inbox"
        = "updated:2023-01-05T10:30:00 sort:saved-asc in:inbox"
      ∧ loadArticlesSearchQuery "" "in:inbox" = " sort:saved-asc in:inbox" := by
  constructor
  · have h := (loadArticles_query_structure "2023-01-05T10:30:00" "in:inbox").1
      (by decide)
    simpa using h
  · exact (loadArticles_query_structure "" "in:inbox").2.1 rfl

/-- C9: `escapeQuotationMarks` distributes over concatenation, rewrites
the double-quote character to backslash-quote, keeps every other
character unchanged, and therefore returns any quote-free string
verbatim. -/
theorem escapeQuotationMarks_replaces_quotes
    (s t : String) (c : Char) (text : String) :
    (escapeQuotationMarks (s ++ t)
        = escapeQuotationMarks s ++ escapeQuotationMarks t) ∧
    (escapeQuotationMarks "\"" = "\\\"") ∧
    (c ≠ '"' →
      escapeQuotationMarks (String.singleton c) = String.singleton c) ∧
    ((∀ ch ∈ text.data, ch ≠ '"') → escapeQuotationMarks text = text) := by
  refine ⟨?_, rfl, ?_, ?_⟩
  · apply String.ext
    simp [escapeQuotationMarks, String.data_append, replaceQuotes_append]
  · intro h
    apply String.ext
    simp [escapeQuotationMarks, String.singleton, replaceQuotes, h]
  · intro h
    apply String.ext
    simp [escapeQuotationMarks, replaceQuotes_of_no_quote text.data h]

/-- Witness for C9: a non-quote character and a quote-free string are
returned unchanged. -/
theorem escapeQuotationMarks_replaces_quotes_witness :
    escapeQuotationMarks (String.singleton 'x') = String.singleton 'x'
      ∧ escapeQuotationMarks "say" = "say" :=
  ⟨(escapeQuotationMarks_replaces_quotes "" "" 'x' "say").2.2.1 (by decide),
   (escapeQuotationMarks_replaces_quotes "" "" 'x' "say").2.2.2 (by decide)⟩

/-- C10: the fetch mappings preserve the order of the response envelope:
the article at index `i` of the `loadArticles` result is the node of the
search edge at index `i`, and the deleted slugs form a sublist (order
preserved, elements only removed) of the slugs of all updates-since
edges. -/
theorem load_responses_preserve_order
    (sr : SearchResponse) (ur : UpdatesSinceResponse) :
    (∀ i : Nat, ((loadArticles sr).1)[i]?
        = (sr.data.search.edges[i]?).map (fun e => e.node)) ∧
    List.Sublist ((loadDeletedArticleSlugs ur).1)
      (ur.data.updatesSince.edges.map (fun e => e.node.slug)) := by
  constructor
  · intro i
    simp [loadArticles, List.getElem?_map]
  · exact List.Sublist.map (fun e => e.node.slug)
      (List.filter_sublist ur.data.updatesSince.edges)
